import Mathlib

/-!
Shallow embedding of the audiobook generator's cache, planner, TTS-retry and
audio-assembly logic (TypeScript sources: `cache.ts`, `config.ts`, `cli.ts`,
`audio.ts`, `tts-provider.ts`), together with theorems settling the frozen
claims about it.

Modelling conventions:
* JavaScript numbers are modelled as `Int` where the program only ever holds
  integers (indices, seeds, byte counts) and as `Rat` where fractional values
  flow (durations in milliseconds, speeds, delays).  IEEE-754 rounding is not
  modelled; all values appearing in the claims are exactly representable.
* Node's `createHash("md5")` is an external library primitive.  The
  development is parametric in the digest function `H : String → String`;
  every theorem quantifying over `H` therefore holds for MD5 in particular.
  `identityDigest` is a concrete instance used to obtain closed test inputs.
* `Buffer` is a list of bytes (`List Nat`); base64 transport decoding done by
  `Buffer.from(data, "base64")` is treated as already performed, so stubbed
  API responses carry decoded bytes.
* The file system, the Gemini API and wall-clock timestamps are external:
  they enter as explicit parameters (`fs : String → Option Buffer`,
  `api : Nat → ApiOutcome`, `now : String`), which determinise the code.
* `for`/`while` loops are translated to structural recursion; loops with a
  data-independent bound use that bound as fuel.
-/

namespace Audiobook

/-! ## String helpers (JS `toUpperCase`, `toLowerCase`, `includes`, path ops) -/

/-- JS `String.prototype.toUpperCase` (inputs in this program are ASCII). -/
def strToUpper (s : String) : String := String.mk (s.data.map Char.toUpper)

/-- JS `String.prototype.toLowerCase` (inputs in this program are ASCII). -/
def strToLower (s : String) : String := String.mk (s.data.map Char.toLower)

/-- Split a character list at every occurrence of `c` (empty parts kept). -/
def splitOnCharGo (c : Char) : List Char → List Char → List (List Char)
  | [], acc => [acc.reverse]
  | x :: xs, acc =>
    if x == c then acc.reverse :: splitOnCharGo c xs []
    else splitOnCharGo c xs (x :: acc)

/-- JS `String.prototype.split` with a one-character separator (every
separator used by this program is one character). -/
def strSplitOnChar (c : Char) (s : String) : List String :=
  (splitOnCharGo c s.data []).map String.mk

/-- JS `String.prototype.trim` (the program only ever trims spaces). -/
def strTrim (s : String) : String :=
  String.mk (((s.data.dropWhile Char.isWhitespace).reverse.dropWhile
    Char.isWhitespace).reverse)

/-- First `n` characters of a string. -/
def strTake (s : String) (n : Nat) : String := String.mk (s.data.take n)

/-- String without its first `n` characters. -/
def strDrop (s : String) (n : Nat) : String := String.mk (s.data.drop n)

/-- Does `pat` occur as a prefix of `l`? -/
def listIsPrefix (pat l : List Char) : Bool :=
  match pat, l with
  | [], _ => true
  | _ :: _, [] => false
  | p :: ps, c :: cs => p == c && listIsPrefix ps cs

/-- Does `pat` occur as a contiguous sublist of `l`? -/
def listHasInfix (pat l : List Char) : Bool :=
  match l with
  | [] => listIsPrefix pat []
  | _ :: cs => listIsPrefix pat l || listHasInfix pat cs

/-- JS `String.prototype.includes`. -/
def strIncludes (s pat : String) : Bool := listHasInfix pat.data s.data

/-- Node `path.join` for the two-component joins used by the cache store. -/
def pathJoin (a b : String) : String := a ++ "/" ++ b

/-- Last `/`-separated component, as Node `path.basename` for the paths used
here. -/
def pathBasename (p : String) : String :=
  match (strSplitOnChar '/' p).getLast? with
  | some s => s
  | none => p

/-- A concrete digest instance.  The development is parametric in the digest
function; the repository instantiates it with Node's MD5.  Cache correctness
never depends on the digest's internals, only on it being a function, so any
concrete choice yields valid closed test inputs. -/
def identityDigest : String → String := fun s => s

/-! ## Data model (`types.ts`) -/

/-- One parsed story segment (`types.ts` interface `Segment`). -/
structure Segment where
  id : String
  index : Int
  speaker : String
  text : String
  lineNumber : Int
deriving DecidableEq, Repr

/-- Voice configuration for a speaker (`types.ts` interface `VoiceConfig`).
`extraParams` is provider-opaque pass-through data; it is carried as its JSON
serialization. -/
structure VoiceConfig where
  name : String
  seed : Option Int := none
  stylePrompt : Option String := none
  voiceName : Option String := none
  speed : Option Rat := none
  pitch : Option Rat := none
  extraParams : Option String := none
deriving DecidableEq, Repr

/-- TTS provider configuration (`types.ts` interface `ProviderConfig`). -/
structure ProviderConfig where
  name : String
  apiKey : Option String := none
  model : Option String := none
  baseUrl : Option String := none
  rateLimit : Option Nat := none
  maxRetries : Option Nat := none
  timeout : Option Nat := none
deriving DecidableEq, Repr

/-- Audio output configuration (`types.ts` interface `AudioConfig`). -/
structure AudioConfig where
  format : String
  sampleRate : Option Nat := none
  bitDepth : Option Nat := none
  silencePadding : Option Nat := none
  normalize : Option Bool := none
deriving DecidableEq, Repr

/-- Main configuration (`types.ts` interface `Config`). -/
structure Config where
  version : String
  provider : ProviderConfig
  audio : AudioConfig
  voices : List VoiceConfig
  defaultVoice : Option VoiceConfig := none
  globalSeed : Option Int := none
deriving DecidableEq, Repr

/-- Hash triple identifying a segment's generation inputs (`types.ts`
interface `SegmentHash`). -/
structure SegmentHash where
  textHash : String
  voiceHash : String
  combinedHash : String
deriving DecidableEq, Repr

/-- Cache entry for one generated segment (`types.ts` interface
`CachedSegment`). -/
structure CachedSegment where
  segmentId : String
  index : Int
  speaker : String
  audioPath : String
  durationMs : Rat
  fileSize : Nat
  hash : SegmentHash
  generatedAt : String
  provider : String
  success : Bool
  error : Option String := none
deriving DecidableEq, Repr

/-- Aggregate statistics (`types.ts` interface `GenerationStats`). -/
structure GenerationStats where
  totalSegments : Nat
  generatedSegments : Nat
  cachedSegments : Nat
  failedSegments : Nat
  totalTimeMs : Rat
  totalAudioDurationMs : Rat
deriving DecidableEq, Repr

/-- The persisted cache manifest (`types.ts` interface `CacheManifest`). -/
structure CacheManifest where
  version : String
  storyPath : String
  storyHash : String
  configHash : String
  segments : List CachedSegment
  lastUpdated : String
  stats : GenerationStats
deriving DecidableEq, Repr

/-! ## Configuration resolution and fingerprinting (`config.ts`, `cache.ts`) -/

/-- One entry of the `DEFAULT_VOICES` table in `config.ts` (each entry there
has exactly the fields `voiceName`, `stylePrompt`, `speed`). -/
structure BuiltinVoice where
  voiceName : String
  stylePrompt : String
  speed : Rat
deriving DecidableEq, Repr

/-- The `DEFAULT_VOICES` record of `config.ts`, as a lookup function. -/
def DEFAULT_VOICES (speaker : String) : Option BuiltinVoice :=
  if speaker = "NARRATOR" then
    some ⟨"Zephyr", "Calm, measured storytelling voice with clear enunciation", 1⟩
  else if speaker = "CHARACTER1" then
    some ⟨"Kore", "Warm, friendly voice", 1⟩
  else if speaker = "CHARACTER2" then
    some ⟨"Charon", "Deep, authoritative voice", 1⟩
  else none

/-- Head of the `GEMINI_VOICES` list in `config.ts` (`GEMINI_VOICES[0]`). -/
def GEMINI_VOICES_head : String := "Zephyr"

/-- Model of `config.ts` `getVoiceConfig`: resolve the voice for a speaker through the
fallback chain exact-match → configured default voice → built-in default →
minimal last-resort voice. -/
def getVoiceConfig (config : Config) (speaker : String) : VoiceConfig :=
  let normalizedSpeaker := strToUpper speaker
  match config.voices.find? (fun v => strToUpper v.name == normalizedSpeaker) with
  | some exactMatch =>
    { exactMatch with seed := exactMatch.seed.orElse fun _ => config.globalSeed }
  | none =>
    match config.defaultVoice with
    | some dv =>
      { dv with name := speaker, seed := dv.seed.orElse fun _ => config.globalSeed }
    | none =>
      match DEFAULT_VOICES normalizedSpeaker with
      | some bd =>
        { name := speaker, seed := config.globalSeed, voiceName := some bd.voiceName,
          stylePrompt := some bd.stylePrompt, speed := some bd.speed }
      | none =>
        { name := speaker, seed := config.globalSeed, voiceName := some GEMINI_VOICES_head,
          stylePrompt := some "Natural speaking voice", speed := some 1 }

/-- Escape a string for a JSON string literal (backslash and quote; the
program's config strings contain no control characters). -/
def jsonEscape (s : String) : String :=
  s.data.foldl
    (fun acc c =>
      acc ++ (if c = '\\' then "\\\\" else if c = '"' then "\\\"" else String.singleton c))
    ""

/-- A JSON string literal. -/
def jsonStr (s : String) : String := "\"" ++ jsonEscape s ++ "\""

/-- Decimal digits of the fraction `num/den` (`num < den`), with fuel.  Used
to render rationals the way JS renders the (terminating) decimals arising
from config values. -/
def fracDigits : Nat → Nat → Nat → List Char
  | _, _, 0 => []
  | num, den, fuel + 1 =>
    if num = 0 then []
    else Char.ofNat (48 + num * 10 / den) :: fracDigits (num * 10 % den) den fuel

/-- Render a rational the way `JSON.stringify` renders the corresponding JS
number (`1` for `1.0`, `0.25` for `0.25`). -/
def ratToJsonString (q : Rat) : String :=
  let sign := match q.num with
    | .negSucc _ => "-"
    | .ofNat _ => ""
  let n := q.num.natAbs
  let intPart := n / q.den
  let rem := n % q.den
  if rem = 0 then sign ++ toString intPart
  else sign ++ toString intPart ++ "." ++ String.mk (fracDigits rem q.den 100)

/-- Model of `JSON.stringify` of the `relevantFields` object built in
`config.ts` `hashVoiceConfig`: keys in insertion order, `undefined` fields
omitted. -/
def serializeVoiceRelevantFields (voice : VoiceConfig) : String :=
  let fields : List (String × Option String) :=
    [("name", some (jsonStr voice.name)),
     ("seed", voice.seed.map fun i => toString i),
     ("stylePrompt", voice.stylePrompt.map jsonStr),
     ("voiceName", voice.voiceName.map jsonStr),
     ("speed", voice.speed.map ratToJsonString),
     ("pitch", voice.pitch.map ratToJsonString),
     ("extraParams", voice.extraParams)]
  let parts := fields.filterMap fun kv =>
    kv.2.map fun v => jsonStr kv.1 ++ ":" ++ v
  "\x7b" ++ String.intercalate "," parts ++ "\x7d"

/-- Model of `cache.ts` `hashText`, parametric in the digest `H` (MD5 in the source). -/
def hashText (H : String → String) (text : String) : String := H text

/-- Model of `config.ts` `hashVoiceConfig`. -/
def hashVoiceConfig (H : String → String) (voice : VoiceConfig) : String :=
  H (serializeVoiceRelevantFields voice)

/-- Model of `cache.ts` `generateSegmentHash`. -/
def generateSegmentHash (H : String → String) (segment : Segment) (config : Config) :
    SegmentHash :=
  let voiceConfig := getVoiceConfig config segment.speaker
  let textHash := hashText H segment.text
  let voiceHash := hashVoiceConfig H voiceConfig
  let combinedHash := H (textHash ++ "-" ++ voiceHash)
  { textHash := textHash, voiceHash := voiceHash, combinedHash := combinedHash }

/-! ## Cache store (`cache.ts`) -/

/-- Model of `cache.ts` `CACHE_VERSION`. -/
def CACHE_VERSION : String := "1.0.0"

/-- Model of `cache.ts` `CACHE_DIR_NAME`. -/
def CACHE_DIR_NAME : String := ".audiobook-cache"

/-- Model of `cache.ts` `getCacheDir` (story-specific subfolder when a story hash is
supplied). -/
def getCacheDir (outputDir : String) (storyHash : Option String) : String :=
  match storyHash with
  | some h => pathJoin (pathJoin outputDir CACHE_DIR_NAME) (strTake h 8)
  | none => pathJoin outputDir CACHE_DIR_NAME

/-- Model of `cache.ts` `createEmptyManifest`; `new Date().toISOString()` enters as the
explicit timestamp `now`. -/
def createEmptyManifest (storyPath storyHash configHash now : String) : CacheManifest :=
  { version := CACHE_VERSION, storyPath := storyPath, storyHash := storyHash,
    configHash := configHash, segments := [], lastUpdated := now,
    stats := ⟨0, 0, 0, 0, 0, 0⟩ }

/-- Model of `cache.ts` `isSegmentCached`: the authoritative cache-hit predicate. -/
def isSegmentCached (H : String → String) (manifest : Option CacheManifest)
    (segment : Segment) (config : Config) : Option CachedSegment :=
  match manifest with
  | none => none
  | some m =>
    match m.segments.find? (fun s => s.segmentId == segment.id) with
    | none => none
    | some cached =>
      if !cached.success then none
      else
        let currentHash := generateSegmentHash H segment config
        if cached.hash.combinedHash ≠ currentHash.combinedHash then none
        else some cached

/-- Model of `cache.ts` `verifyCachedSegment`: does the entry's audio file exist on
disk?  The file system enters as the predicate `fileExists`. -/
def verifyCachedSegment (fileExists : String → Bool) (outputDir : String)
    (cached : CachedSegment) (storyHash : Option String) : Bool :=
  fileExists
    (pathJoin (pathJoin (getCacheDir outputDir storyHash) "segments")
      (pathBasename cached.audioPath))

/-- The `result` record argument of `cache.ts` `updateCachedSegment`. -/
structure UpsertResult where
  audioPath : String
  durationMs : Rat
  fileSize : Nat
  success : Bool
  error : Option String := none
deriving DecidableEq, Repr

/-- The `cachedSegment` object built inside `cache.ts` `updateCachedSegment`. -/
def mkCachedSegment (H : String → String) (segment : Segment) (config : Config)
    (result : UpsertResult) (now : String) : CachedSegment :=
  { segmentId := segment.id, index := segment.index, speaker := segment.speaker,
    audioPath := result.audioPath, durationMs := result.durationMs,
    fileSize := result.fileSize, hash := generateSegmentHash H segment config,
    generatedAt := now, provider := config.provider.name,
    success := result.success, error := result.error }

/-- Model of `cache.ts` `updateCachedSegment`: upsert one entry, re-sorting by index
(JS `Array.prototype.sort` is a stable sort; modelled by the stable
`List.insertionSort`). -/
def updateCachedSegment (H : String → String) (manifest : CacheManifest)
    (segment : Segment) (config : Config) (result : UpsertResult) (now : String) :
    CacheManifest :=
  let cachedSegment := mkCachedSegment H segment config result now
  let filteredSegments := manifest.segments.filter fun s => s.segmentId != segment.id
  { manifest with
    segments := (filteredSegments ++ [cachedSegment]).insertionSort
      (fun a b => a.index ≤ b.index),
    lastUpdated := now }

/-- Manifest transformation performed by `cache.ts` `removeCachedSegment`
(the best-effort `unlink` of the backing audio file is an external side
effect with no bearing on the returned manifest). -/
def removeCachedSegment (manifest : CacheManifest) (segmentId : String) (now : String) :
    CacheManifest :=
  { manifest with
    segments := manifest.segments.filter fun s => s.segmentId != segmentId,
    lastUpdated := now }

/-! ## Incremental planner (`cache.ts`) -/

/-- Model of `cache.ts` `getSegmentsToGenerate`. -/
def getSegmentsToGenerate (H : String → String) (manifest : Option CacheManifest)
    (segments : List Segment) (config : Config) : List Segment :=
  segments.filter fun segment => (isSegmentCached H manifest segment config).isNone

/-- Model of `cache.ts` `getCachedSegments`. -/
def getCachedSegments (H : String → String) (manifest : Option CacheManifest)
    (segments : List Segment) (config : Config) : List (Segment × CachedSegment) :=
  segments.filterMap fun segment =>
    (isSegmentCached H manifest segment config).map fun cached => (segment, cached)

/-- Body of the filter in `cache.ts` `getSegmentsWithStyleChanges` after the
speaker pre-filter: uncached segments count as changed, otherwise the stored
`voiceHash` is compared with a fresh one. -/
def styleChanged (H : String → String) (m : CacheManifest) (segment : Segment)
    (config : Config) : Bool :=
  match m.segments.find? (fun s => s.segmentId == segment.id) with
  | none => true
  | some cached =>
    cached.hash.voiceHash != (generateSegmentHash H segment config).voiceHash

/-- Model of `cache.ts` `getSegmentsWithStyleChanges`. -/
def getSegmentsWithStyleChanges (H : String → String) (manifest : Option CacheManifest)
    (segments : List Segment) (config : Config) (speakers : Option (List String)) :
    List Segment :=
  match manifest with
  | none => segments
  | some m =>
    let normalizedSpeakers := speakers.map fun l => l.map strToUpper
    segments.filter fun segment =>
      match normalizedSpeakers with
      | some ns =>
        if !(ns.contains (strToUpper segment.speaker)) then false
        else styleChanged H m segment config
      | none => styleChanged H m segment config

/-! ## Generation run (`cli.ts` `generateAudiobook`, cache/manifest slice)

The pure core of `generateAudiobook`: manifest selection, planner queries, the
sequential generation loop (the TTS call enters as a stub
`gen : Segment → GenResponse` standing for `generateSegmentAudio`), the
post-run verification of cached files, and the final sort of results. -/

/-- The fields of `tts-provider.ts` `TTSResponse` consumed by the CLI loop. -/
structure GenResponse where
  success : Bool
  audioPath : Option String := none
  durationMs : Option Rat := none
  fileSize : Option Nat := none
  error : Option String := none
deriving DecidableEq, Repr

/-- Model of `types.ts` `SegmentGenerationResult` (the fields the CLI populates;
`timeTakenMs` is wall-clock diagnostics and is omitted). -/
structure SegResult where
  segment : Segment
  success : Bool
  audioPath : Option String := none
  durationMs : Option Rat := none
  fileSize : Option Nat := none
  fromCache : Bool
  error : Option String := none
deriving DecidableEq, Repr

/-- Model of `cli.ts` `generateAudiobook` lines loading/choosing the manifest: the
loaded manifest is discarded (replaced by an empty one) when `--force` is
given, when no manifest was loaded, or when the stored `storyHash` or
`configHash` differs from the freshly computed one. -/
def selectManifest (force : Bool) (loaded : Option CacheManifest)
    (storyPath storyHash configHash now : String) : CacheManifest :=
  match loaded with
  | none => createEmptyManifest storyPath storyHash configHash now
  | some m =>
    if force || m.storyHash != storyHash || m.configHash != configHash then
      createEmptyManifest storyPath storyHash configHash now
    else m

/-- The per-segment generation loop of `cli.ts` `generateAudiobook`: on a
successful response the manifest is upserted and a success result recorded,
otherwise a failure result is recorded.  (The periodic mid-run manifest save
is an external side effect on an unchanged manifest value.) -/
def genLoop (H : String → String) (gen : Segment → GenResponse) (config : Config)
    (now : String) : List Segment → CacheManifest → CacheManifest × List SegResult
  | [], m => (m, [])
  | segment :: rest, m =>
    let response := gen segment
    if response.success && response.audioPath.isSome then
      let m' := updateCachedSegment H m segment config
        { audioPath := response.audioPath.getD "", durationMs := response.durationMs.getD 0,
          fileSize := response.fileSize.getD 0, success := true } now
      let r : SegResult :=
        { segment := segment, success := true, audioPath := response.audioPath,
          durationMs := response.durationMs, fileSize := response.fileSize,
          fromCache := false }
      let rec' := genLoop H gen config now rest m'
      (rec'.1, r :: rec'.2)
    else
      let r : SegResult :=
        { segment := segment, success := false, fromCache := false,
          error := response.error }
      let rec' := genLoop H gen config now rest m
      (rec'.1, r :: rec'.2)

/-- The cached-segment pass of `cli.ts` `generateAudiobook`: entries whose
audio file still exists are appended to the results as cache hits; entries
whose file is missing are only warned about and dropped (the source comment
reads "Cached file missing, would need to regenerate"). -/
def cachedResults (fileExists : String → Bool) (outputDir : String) :
    List (Segment × CachedSegment) → List SegResult
  | [] => []
  | (segment, cached) :: rest =>
    if verifyCachedSegment fileExists outputDir cached none then
      { segment := segment, success := true, audioPath := some cached.audioPath,
        durationMs := some cached.durationMs, fileSize := some cached.fileSize,
        fromCache := true } :: cachedResults fileExists outputDir rest
    else
      cachedResults fileExists outputDir rest

/-- Outcome of the cache/generation phase of `cli.ts` `generateAudiobook`. -/
structure RunOutcome where
  manifest : CacheManifest
  toGenerate : List Segment
  results : List SegResult
deriving Repr

/-- Pure core of `cli.ts` `generateAudiobook` from manifest selection to the
index-sorted result list. -/
def runGenerationPhase (H : String → String) (fileExists : String → Bool)
    (gen : Segment → GenResponse) (force : Bool) (loaded : Option CacheManifest)
    (outputDir storyPath storyHash configHash now : String)
    (segments : List Segment) (config : Config) : RunOutcome :=
  let manifest := selectManifest force loaded storyPath storyHash configHash now
  let segmentsToGenerate :=
    if force then segments else getSegmentsToGenerate H (some manifest) segments config
  let cachedSegmentsInfo :=
    if force then [] else getCachedSegments H (some manifest) segments config
  let genOut := genLoop H gen config now segmentsToGenerate manifest
  let cres := cachedResults fileExists outputDir cachedSegmentsInfo
  { manifest := genOut.1, toGenerate := segmentsToGenerate,
    results := (genOut.2 ++ cres).insertionSort
      (fun a b => a.segment.index ≤ b.segment.index) }

/-! ## Byte-level buffer model (Node `Buffer` as a list of bytes) -/

/-- Node `Buffer`, as a list of byte values. -/
abbrev Buffer : Type := List Nat

/-- Length of a buffer. -/
def Buffer.len (b : Buffer) : Nat := List.length b

/-- Byte at an offset (0 outside the buffer; all modelled reads are
in-bounds). -/
def Buffer.byteAt (b : Buffer) (off : Nat) : Nat := List.getD b off 0

/-- Model of `Buffer.prototype.readUInt16LE`. -/
def Buffer.readUInt16LE (b : Buffer) (off : Nat) : Nat :=
  b.byteAt off + 256 * b.byteAt (off + 1)

/-- Model of `Buffer.prototype.readUInt32LE`. -/
def Buffer.readUInt32LE (b : Buffer) (off : Nat) : Nat :=
  b.byteAt off + 256 * b.byteAt (off + 1) + 65536 * b.byteAt (off + 2) +
    16777216 * b.byteAt (off + 3)

/-- Little-endian bytes of a 16-bit value. -/
def uint16LE (n : Nat) : Buffer := [n % 256, n / 256 % 256]

/-- Little-endian bytes of a 32-bit value. -/
def uint32LE (n : Nat) : Buffer :=
  [n % 256, n / 256 % 256, n / 65536 % 256, n / 16777216 % 256]

/-- ASCII bytes of a string (`buffer.write(s, off)` content). -/
def asciiBytes (s : String) : Buffer := s.data.map Char.toNat

/-- Model of `buffer.toString("ascii", start, stop)`. -/
def Buffer.toAscii (b : Buffer) (start stop : Nat) : String :=
  String.mk (((List.drop start b).take (stop - start)).map Char.ofNat)

/-- Model of `buffer.subarray(start, stop)` (also used for the one-argument form with
`stop = b.len`). -/
def Buffer.subarray (b : Buffer) (start stop : Nat) : Buffer :=
  (List.drop start b).take (stop - start)

/-! ## WAV utilities (`audio.ts`; `tts-provider.ts` defines the identical
header builder) -/

/-- The canonical 44-byte RIFF/WAVE header written by `createWavHeader`
(defined identically in `audio.ts` and `tts-provider.ts`).  `byteRate` and
`blockAlign` are exact for the byte-aligned sample widths the program uses. -/
def createWavHeader (dataLength numChannels sampleRate bitsPerSample : Nat) : Buffer :=
  let byteRate := sampleRate * numChannels * bitsPerSample / 8
  let blockAlign := numChannels * bitsPerSample / 8
  asciiBytes "RIFF" ++ uint32LE (36 + dataLength) ++ asciiBytes "WAVE" ++
    asciiBytes "fmt " ++ uint32LE 16 ++ uint16LE 1 ++ uint16LE numChannels ++
    uint32LE sampleRate ++ uint32LE byteRate ++ uint16LE blockAlign ++
    uint16LE bitsPerSample ++ asciiBytes "data" ++ uint32LE dataLength

/-- Model of `audio.ts` `WavHeader`. -/
structure WavHeader where
  numChannels : Nat
  sampleRate : Nat
  bitsPerSample : Nat
  dataSize : Nat
deriving DecidableEq, Repr

/-- Model of `audio.ts` `parseWavHeader`. -/
def parseWavHeader (buffer : Buffer) : Option WavHeader :=
  if buffer.len < 44 then none
  else if buffer.toAscii 0 4 ≠ "RIFF" ∨ buffer.toAscii 8 12 ≠ "WAVE" then none
  else
    some { numChannels := buffer.readUInt16LE 22, sampleRate := buffer.readUInt32LE 24,
           bitsPerSample := buffer.readUInt16LE 34, dataSize := buffer.readUInt32LE 40 }

/-- Chunk-scanning loop of `audio.ts` `extractWavData`; each step advances
the offset by at least 8, so the buffer length bounds the iteration count
and serves as fuel. -/
def extractWavDataGo (buffer : Buffer) (offset : Nat) : Nat → Buffer
  | 0 => buffer.subarray 44 buffer.len
  | fuel + 1 =>
    if offset < buffer.len - 8 then
      let chunkId := buffer.toAscii offset (offset + 4)
      let chunkSize := buffer.readUInt32LE (offset + 4)
      if chunkId = "data" then buffer.subarray (offset + 8) (offset + 8 + chunkSize)
      else
        let offset' := offset + 8 + chunkSize + (if chunkSize % 2 ≠ 0 then 1 else 0)
        extractWavDataGo buffer offset' fuel
    else buffer.subarray 44 buffer.len

/-- Model of `audio.ts` `extractWavData`: locate the `data` sub-chunk, falling back to
the canonical 44-byte header offset. -/
def extractWavData (buffer : Buffer) : Buffer :=
  extractWavDataGo buffer 12 buffer.len

/-- Model of `audio.ts` `generateSilence`: a zero-filled payload of the requested
duration. -/
def generateSilence (durationMs : Rat) (sampleRate numChannels bitsPerSample : Nat) :
    Buffer :=
  let bytesPerSample := bitsPerSample / 8
  let numSamples := (durationMs / 1000 * sampleRate).floor.toNat
  List.replicate (numSamples * numChannels * bytesPerSample) 0

/-- Model of `audio.ts` `calculateDuration`: milliseconds of PCM payload of the given
size (JS float division, modelled exactly on `Rat`; the degenerate
divide-by-zero case does not arise for the program's parameters). -/
def calculateDuration (dataSize sampleRate numChannels bitsPerSample : Nat) : Rat :=
  let bytesPerSample : Rat := (bitsPerSample : Rat) / 8
  let numSamples : Rat := (dataSize : Rat) / (numChannels * bytesPerSample)
  numSamples / sampleRate * 1000

/-! ## Audio assembler (`audio.ts` `stitchAudioFiles`) -/

/-- Model of `audio.ts` `AudioFileInfo`. -/
structure AudioFileInfo where
  path : String
  index : Int
  speaker : String
  text : String
  durationMs : Option Rat := none
deriving DecidableEq, Repr

/-- Model of `types.ts` `ManifestSegment`. -/
structure ManifestSegment where
  index : Int
  speaker : String
  text : String
  startMs : Rat
  endMs : Rat
  durationMs : Rat
  audioFile : String
deriving DecidableEq, Repr

/-- Options record of `audio.ts` `stitchAudioFiles`, with the source's
defaults. -/
structure StitchOptions where
  silencePaddingMs : Rat := 500
  sampleRate : Nat := 24000
  numChannels : Nat := 1
  bitsPerSample : Nat := 16
  title : String := "Audiobook"
  sourceFile : String := "unknown"
deriving Repr

/-- The duration recorded for one file by `audio.ts` `stitchAudioFiles`:
`file.durationMs || calculateDuration(...)` — the caller value is used only
when present and truthy (nonzero), otherwise the duration is computed from
the extracted payload and the parsed header. -/
def stitchFileDuration (file : AudioFileInfo) (header : WavHeader) (audioData : Buffer) :
    Rat :=
  let computed := calculateDuration audioData.len header.sampleRate header.numChannels
    header.bitsPerSample
  match file.durationMs with
  | some d => if d = 0 then computed else d
  | none => computed

/-- Per-file loop of `audio.ts` `stitchAudioFiles` over the index-sorted
list: missing file or unparseable header abort with the source's error
message; silence is appended between consecutive segments only.  Returns the
manifest segments, the payload chunks, and the final timeline position. -/
def stitchGo (fs : String → Option Buffer) (opts : StitchOptions)
    (silenceBuffer : Buffer) : List AudioFileInfo → Rat →
    Except String (List ManifestSegment × List Buffer × Rat)
  | [], pos => .ok ([], [], pos)
  | file :: rest, pos =>
    match fs file.path with
    | none => .error ("Audio file not found: " ++ file.path)
    | some wavBuffer =>
      match parseWavHeader wavBuffer with
      | none => .error ("Invalid WAV file: " ++ file.path)
      | some header =>
        let audioData := extractWavData wavBuffer
        let durationMs := stitchFileDuration file header audioData
        let seg : ManifestSegment :=
          { index := file.index, speaker := file.speaker, text := file.text,
            startMs := pos, endMs := pos + durationMs, durationMs := durationMs,
            audioFile := pathBasename file.path }
        let isLast := rest.isEmpty
        let withSilence := ¬isLast ∧ opts.silencePaddingMs > 0
        let pos' := pos + durationMs + (if withSilence then opts.silencePaddingMs else 0)
        match stitchGo fs opts silenceBuffer rest pos' with
        | .error e => .error e
        | .ok (segs, chunks, finalPos) =>
          .ok (seg :: segs,
            audioData :: (if withSilence then silenceBuffer :: chunks else chunks),
            finalPos)

/-- Model of `types.ts` `AudiobookManifest`. -/
structure AudiobookManifest where
  version : String
  title : String
  sourceFile : String
  outputFile : String
  totalDurationMs : Rat
  format : String
  sampleRate : Nat
  speakers : List String
  segments : List ManifestSegment
  generatedAt : String
  provider : String
deriving Repr

/-- Model of `audio.ts` `StitchResult`. -/
structure StitchResult where
  outputPath : String
  totalDurationMs : Rat
  segmentCount : Nat
  fileSize : Nat
  manifest : AudiobookManifest
deriving Repr

/-- First-occurrence deduplication, as `[...new Set(xs)]`. -/
def jsSetList (xs : List String) : List String :=
  xs.foldl (fun acc x => if acc.contains x then acc else acc ++ [x]) []

/-- Model of `audio.ts` `stitchAudioFiles`: sort by index, process every file,
concatenate header and payload, and build the timing manifest.  The file
system enters as `fs`; `now` is the `generatedAt` timestamp. -/
def stitchAudioFiles (fs : String → Option Buffer) (files : List AudioFileInfo)
    (outputPath : String) (opts : StitchOptions) (now : String) :
    Except String StitchResult :=
  let sortedFiles := files.insertionSort fun a b => a.index ≤ b.index
  let silenceBuffer := generateSilence opts.silencePaddingMs opts.sampleRate
    opts.numChannels opts.bitsPerSample
  match stitchGo fs opts silenceBuffer sortedFiles 0 with
  | .error e => .error e
  | .ok (manifestSegments, audioChunks, currentPositionMs) =>
    let combinedAudioData : Buffer := audioChunks.foldr (fun a b => a ++ b) []
    let wavHeader := createWavHeader combinedAudioData.len opts.numChannels
      opts.sampleRate opts.bitsPerSample
    let finalBuffer := wavHeader ++ combinedAudioData
    .ok { outputPath := outputPath, totalDurationMs := currentPositionMs,
          segmentCount := sortedFiles.length, fileSize := finalBuffer.len,
          manifest :=
            { version := "1.0.0", title := opts.title, sourceFile := opts.sourceFile,
              outputFile := pathBasename outputPath,
              totalDurationMs := currentPositionMs, format := "wav",
              sampleRate := opts.sampleRate,
              speakers := jsSetList (sortedFiles.map fun f => f.speaker),
              segments := manifestSegments, generatedAt := now,
              provider := "gemini" } }

/-! ## TTS provider (`tts-provider.ts`): mime parsing, WAV conversion,
retry policy, and the seed-retry loop of `GeminiTTSProvider.generateAudio`.

The Gemini API is external: it enters as a stub `api : Nat → ApiOutcome`
mapping the index of each `generateContent` call to its outcome, and
`Math.random()` jitter enters as `jitter : Nat → Rat` (per retry attempt). -/

/-- JS `parseInt` restricted to the simple numeric strings appearing in mime
parameters: leading digits, `none` when there are none (NaN). -/
def jsParseInt (s : String) : Option Nat :=
  let digits := s.data.takeWhile Char.isDigit
  if digits.isEmpty then none
  else some (digits.foldl (fun acc c => acc * 10 + (c.toNat - 48)) 0)

/-- Model of `tts-provider.ts` `WavConversionOptions`; fields the mime string does not
determine stay absent (the API's real mime strings always carry them). -/
structure WavConversionOptions where
  numChannels : Nat
  sampleRate : Option Nat
  bitsPerSample : Option Nat
deriving DecidableEq, Repr

/-- Model of `tts-provider.ts` `parseMimeType`. -/
def parseMimeType (mimeType : String) : WavConversionOptions :=
  let parts := (strSplitOnChar ';' mimeType).map strTrim
  let fileType := parts.headD ""
  let params := parts.tail
  let format := (strSplitOnChar '/' fileType).get? 1
  let bits : Option Nat :=
    match format with
    | some f => if listIsPrefix "L".data f.data then jsParseInt (strDrop f 1) else none
    | none => none
  let rate : Option Nat :=
    params.foldl
      (fun acc param =>
        let kv := (strSplitOnChar '=' param).map strTrim
        if kv.headD "" = "rate" then jsParseInt (kv.getD 1 "") else acc)
      none
  { numChannels := 1, sampleRate := rate, bitsPerSample := bits }

/-- Model of `tts-provider.ts` `convertToWav`: base64 transport decoding is treated as
already performed, so `rawBytes` is the decoded payload.  Mime fields absent
after parsing collapse to 0 (such mime strings never arise from the API and
appear in no claim). -/
def convertToWav (rawBytes : Buffer) (mimeType : String) : Buffer :=
  let options := parseMimeType mimeType
  createWavHeader rawBytes.len options.numChannels (options.sampleRate.getD 0)
    (options.bitsPerSample.getD 0) ++ rawBytes

/-- Model of `tts-provider.ts` `estimateWavDuration`: read the format fields back out
of the produced WAV header and round the duration to whole milliseconds
(JS `Math.round` = floor of x + 1/2, which is Mathlib's `round` on `Rat`). -/
def estimateWavDuration (buffer : Buffer) : Int :=
  if buffer.len < 44 then 0
  else
    let sampleRate := buffer.readUInt32LE 24
    let numChannels := buffer.readUInt16LE 22
    let bitsPerSample := buffer.readUInt16LE 34
    let dataSize := buffer.readUInt32LE 40
    let bytesPerSample : Rat := (bitsPerSample : Rat) / 8
    let numSamples : Rat := (dataSize : Rat) / (numChannels * bytesPerSample)
    round (numSamples / sampleRate * 1000)

/-- Model of `tts-provider.ts` `RetryOptions`. -/
structure RetryOptions where
  maxRetries : Nat
  baseDelayMs : Rat
  maxDelayMs : Rat
deriving DecidableEq, Repr

/-- The retryability test inside `tts-provider.ts` `withRetry`: transient
network/server conditions recognised by message substrings. -/
def isRetryableMsg (message : String) : Bool :=
  let m := strToLower message
  strIncludes m "rate limit" || strIncludes m "timeout" || strIncludes m "503" ||
    strIncludes m "429" || strIncludes m "500"

/-- Attempt loop of `tts-provider.ts` `withRetry`.  `fn` maps the attempt
number to that call's outcome; returns the final outcome, the number of
calls made, and the backoff delays slept (each
`min(base·2^attempt + jitter, maxDelay)`).  The fuel is the loop bound
`maxRetries + 1 - attempt`, so the 0 case is unreachable (it mirrors the
source's dead final `throw`). -/
def withRetryGo (fn : Nat → Except String α) (opts : RetryOptions) (jitter : Nat → Rat)
    (attempt : Nat) : Nat → Except String α × Nat × List Rat
  | 0 => (.error "", 0, [])
  | fuel + 1 =>
    match fn attempt with
    | .ok v => (.ok v, 1, [])
    | .error lastError =>
      if !isRetryableMsg lastError || attempt == opts.maxRetries then
        (.error lastError, 1, [])
      else
        let delay := min (opts.baseDelayMs * 2 ^ attempt + jitter attempt) opts.maxDelayMs
        let r := withRetryGo fn opts jitter (attempt + 1) fuel
        (r.1, r.2.1 + 1, delay :: r.2.2)

/-- Model of `tts-provider.ts` `withRetry`. -/
def withRetry (fn : Nat → Except String α) (opts : RetryOptions) (jitter : Nat → Rat) :
    Except String α × Nat × List Rat :=
  withRetryGo fn opts jitter 0 (opts.maxRetries + 1)

/-- The `inlineData` part of a Gemini response. -/
structure InlineData where
  data : Option Buffer := none
  mimeType : Option String := none
deriving Repr

/-- The response fields of one `generateContent` call that
`GeminiTTSProvider.generateAudio` inspects. -/
structure ApiResponse where
  finishReason : Option String := none
  blockReason : Option String := none
  inlineData : Option InlineData := none
deriving Repr

/-- Outcome of one `generateContent` call: a response, or a thrown error
(network failures, timeouts, server errors). -/
inductive ApiOutcome where
  | ok (r : ApiResponse)
  | throwErr (msg : String)
deriving Repr

/-- One invocation of the closure passed to `withRetry` inside
`GeminiTTSProvider.generateAudio`: performs one API call, turns block /
non-STOP finish conditions into thrown errors, returns `none` when no audio
data came back, and otherwise the WAV conversion of the payload. -/
def attemptOnce (api : Nat → ApiOutcome) (callIdx : Nat) :
    Except String (Option Buffer) :=
  match api callIdx with
  | .throwErr msg => .error msg
  | .ok r =>
    match r.blockReason with
    | some br => .error ("Content blocked: " ++ br)
    | none =>
      match (match r.finishReason with
             | some fr => if fr ≠ "STOP" then some fr else none
             | none => none) with
      | some fr => .error ("Generation incomplete: " ++ fr)
      | none =>
        match r.inlineData with
        | some d =>
          match d.data with
          | some bytes =>
            if bytes.isEmpty then .ok none
            else
              let mime :=
                match d.mimeType with
                | some m => if m.data.isEmpty then "audio/L16;rate=24000" else m
                | none => "audio/L16;rate=24000"
              .ok (some (convertToWav bytes mime))
          | none => .ok none
        | none => .ok none

/-- Model of `types.ts` `TTSRequest` (fields used by `generateAudio`). -/
structure TTSRequest where
  text : String
  voice : VoiceConfig
  outputPath : String
  timeout : Option Nat := none
deriving Repr

/-- Model of `types.ts` `TTSResponse` as produced by `GeminiTTSProvider.generateAudio`
(`audioData` is the written file's content, whose length is `fileSize`). -/
structure TTSResponseM where
  success : Bool
  audioPath : Option String := none
  durationMs : Option Int := none
  fileSize : Option Nat := none
  error : Option String := none
deriving DecidableEq, Repr

/-- Trace of one `generateAudio` run: the returned response together with the
number of `generateContent` calls made, the seed used by each call in order,
and the backoff delays slept. -/
structure GenTrace where
  response : TTSResponseM
  calls : Nat
  seeds : List Int
  delays : List Rat
deriving Repr

/-- Seed-retry loop of `GeminiTTSProvider.generateAudio`
(`maxSeedRetries = 3`): each iteration runs the inner `withRetry`, and only
an error whose message contains "Generation incomplete: OTHER" triggers a
retry with `currentSeed = baseSeed + seedAttempt + 1`.  The fuel is
`maxSeedRetries + 1 - seedAttempt`; the 0 case mirrors the source's
unreachable fallthrough return. -/
def generateAudioGo (api : Nat → ApiOutcome) (opts : RetryOptions) (jitter : Nat → Rat)
    (req : TTSRequest) (baseSeed : Int) (seedAttempt : Nat) (currentSeed : Int)
    (callBase : Nat) (accSeeds : List Int) (accDelays : List Rat) : Nat → GenTrace
  | 0 =>
    let resp : TTSResponseM :=
      { success := false,
        error := some "Gemini TTS generation failed after 4 seed attempts" }
    { response := resp, calls := callBase, seeds := accSeeds, delays := accDelays }
  | fuel + 1 =>
    let wr := withRetry (fun k => attemptOnce api (callBase + k)) opts jitter
    let totalCalls := callBase + wr.2.1
    let seeds := accSeeds ++ List.replicate wr.2.1 currentSeed
    let delays := accDelays ++ wr.2.2
    match wr.1 with
    | .ok none =>
      let resp : TTSResponseM :=
        { success := false, error := some "No audio data received from Gemini API" }
      { response := resp, calls := totalCalls, seeds := seeds, delays := delays }
    | .ok (some buf) =>
      let resp : TTSResponseM :=
        { success := true, audioPath := some req.outputPath,
          durationMs := some (estimateWavDuration buf), fileSize := some buf.len }
      { response := resp, calls := totalCalls, seeds := seeds, delays := delays }
    | .error msg =>
      if strIncludes msg "Generation incomplete: OTHER" && seedAttempt < 3 then
        generateAudioGo api opts jitter req baseSeed (seedAttempt + 1)
          (baseSeed + (seedAttempt : Int) + 1) totalCalls seeds delays fuel
      else
        let resp : TTSResponseM :=
          { success := false, error := some ("Gemini TTS generation failed: " ++ msg) }
        { response := resp, calls := totalCalls, seeds := seeds, delays := delays }

/-- Model of `GeminiTTSProvider.generateAudio`: base seed from the request's voice,
falling back to the global seed, then 0; inner transient retry via
`withRetry` with the provider's `maxRetries` (default 3), base delay 1000 ms
and cap 30000 ms; outer seed-retry loop with 4 total seed attempts. -/
def generateAudio (api : Nat → ApiOutcome) (cfg : ProviderConfig)
    (globalSeed : Option Int) (jitter : Nat → Rat) (req : TTSRequest) : GenTrace :=
  let baseSeed := ((req.voice.seed.orElse fun _ => globalSeed).getD 0)
  let opts : RetryOptions :=
    { maxRetries := cfg.maxRetries.getD 3, baseDelayMs := 1000, maxDelayMs := 30000 }
  generateAudioGo api opts jitter req baseSeed 0 baseSeed 0 [] [] 4

/-! ## Well-formedness predicate and concrete fixtures

`manifestInv` is the documented manifest invariant: at most one entry per
`segmentId`, entries sorted by `index`.  The remaining definitions are
concrete story/config/stub fixtures used to state closed instances of the
claims; `identityDigest` instantiates the digest parameter there. -/

/-- Manifest invariant: pairwise-distinct `segmentId`s and index-sorted
entries. -/
def manifestInv (m : CacheManifest) : Prop :=
  m.segments.Pairwise (fun a b => a.segmentId ≠ b.segmentId) ∧
    m.segments.Pairwise (fun a b => a.index ≤ b.index)

instance (m : CacheManifest) : Decidable (manifestInv m) :=
  inferInstanceAs (Decidable (And _ _))

/-- The duration the assembler records for one input file, as a function of
the file-system snapshot: the caller-supplied value when present and
nonzero, else the value computed from the extracted payload and parsed
header (0 stands for the unreachable missing/invalid-file cases, which abort
assembly instead). -/
def plannedDuration (fs : String → Option Buffer) (file : AudioFileInfo) : Rat :=
  match fs file.path with
  | none => 0
  | some wavBuffer =>
    match parseWavHeader wavBuffer with
    | none => 0
    | some header => stitchFileDuration file header (extractWavData wavBuffer)

/-- Durations recorded in the timing manifest of a successful assembly
(absent when assembly aborts). -/
def stitchDurations (fs : String → Option Buffer) (files : List AudioFileInfo)
    (outputPath : String) (opts : StitchOptions) (now : String) : Option (List Rat) :=
  (stitchAudioFiles fs files outputPath opts now).toOption.map
    (fun r => r.manifest.segments.map (fun sg => sg.durationMs))

/-- A minimal valid configuration (no per-speaker voices, global seed 1). -/
def cfg0 : Config :=
  { version := "1.0.0", provider := { name := "gemini" }, audio := { format := "wav" },
    voices := [], globalSeed := some 1 }

/-- Fixture segment spoken by ALICE. -/
def segA : Segment :=
  { id := "seg_0001", index := 0, speaker := "ALICE", text := "Hi", lineNumber := 1 }

/-- Fixture segment spoken by BOB. -/
def segB : Segment :=
  { id := "seg_0002", index := 1, speaker := "BOB", text := "Yo", lineNumber := 2 }

/-- A successful cache entry for `segA` whose stored hash is the fresh
fingerprint of `(segA, cfg0)`. -/
def entryA : CachedSegment :=
  mkCachedSegment identityDigest segA cfg0
    { audioPath := "seg_0001.wav", durationMs := 10, fileSize := 5, success := true } "t0"

/-- A manifest holding exactly `entryA`, with the given stored story/config
hashes. -/
def manifestA (storyHash configHash : String) : CacheManifest :=
  { createEmptyManifest "story.txt" storyHash configHash "t0" with segments := [entryA] }

/-- A 48-byte-payload canonical WAV file (24000 Hz, mono, 16-bit), 1 ms of
audio. -/
def wav48 : Buffer := createWavHeader 48 1 24000 16 ++ List.replicate 48 0

/-- A file system holding exactly `a.wav` = `wav48`. -/
def fsOne : String → Option Buffer := fun p => if p = "a.wav" then some wav48 else none

/-- Assembler input referring to `a.wav` with the given caller-supplied
duration. -/
def fileA (d : Option Rat) : AudioFileInfo :=
  { path := "a.wav", index := 0, speaker := "A", text := "hi", durationMs := d }

/-- Provider configuration with all-default retry parameters. -/
def cfgGem : ProviderConfig := { name := "gemini" }

/-- A successful Gemini response carrying 120 bytes of L16 audio declared at
10 Hz — 6000 ms of audio. -/
def okResp6s : ApiResponse :=
  { finishReason := some "STOP",
    inlineData := some { data := some (List.replicate 120 0),
                         mimeType := some "audio/L16;rate=10" } }

/-- API stub: every call reports finish reason OTHER. -/
def stubOther : Nat → ApiOutcome := fun _ => .ok { finishReason := some "OTHER" }

/-- API stub: first call throws a rate-limit error, later calls succeed. -/
def stubTransientOnce : Nat → ApiOutcome :=
  fun k => if k = 0 then .throwErr "rate limit exceeded" else .ok okResp6s

/-- API stub: every call succeeds with the 6-second audio. -/
def stubOk6s : Nat → ApiOutcome := fun _ => .ok okResp6s

/-- Deterministic zero jitter. -/
def noJitter : Nat → Rat := fun _ => 0

/-- The WAV buffer produced for `okResp6s`'s payload. -/
def wav6s : Buffer := convertToWav (List.replicate 120 0) "audio/L16;rate=10"

/-- TTS request with the given base seed and text. -/
def reqSeed (baseSeed : Int) (text : String) : TTSRequest :=
  { text := text, voice := { name := "NARRATOR", seed := some baseSeed },
    outputPath := "/output/test.wav" }

/-! ## Theorems -/

set_option maxRecDepth 8000

/-- On a list whose `segmentId`s are pairwise distinct, `find?` by id returns
exactly the member carrying that id. -/
theorem find?_segmentId_eq_some_iff (l : List CachedSegment)
    (hnd : (l.map (fun s => s.segmentId)).Nodup) (sid : String) (e : CachedSegment) :
    l.find? (fun s => s.segmentId == sid) = some e ↔ e ∈ l ∧ e.segmentId = sid := by
  induction l with
  | nil => simp
  | cons a l ih =>
    simp only [List.map_cons, List.nodup_cons, List.mem_map] at hnd
    obtain ⟨ha, hl⟩ := hnd
    by_cases hpa : a.segmentId = sid
    · rw [List.find?_cons_of_pos _ (by simp [hpa])]
      constructor
      · intro h
        injection h with h
        subst h
        exact ⟨List.mem_cons_self _ _, hpa⟩
      · rintro ⟨hmem, hid⟩
        rcases List.mem_cons.1 hmem with rfl | hmem
        · rfl
        · exact absurd ⟨e, hmem, by rw [hid, hpa]⟩ ha
    · rw [List.find?_cons_of_neg _ (by simp [hpa])]
      rw [ih hl]
      constructor
      · rintro ⟨hmem, hid⟩
        exact ⟨List.mem_cons_of_mem _ hmem, hid⟩
      · rintro ⟨hmem, hid⟩
        rcases List.mem_cons.1 hmem with rfl | hmem
        · exact absurd hid hpa
        · exact ⟨hmem, hid⟩

/-- C2: `isSegmentCached` returns a present entry exactly when the manifest
is present and holds an entry for the segment's id that is marked successful
and whose stored `combinedHash` equals the freshly computed one; in every
other case (absent manifest, missing entry, failed entry, stale hash) it
returns absent. -/
theorem isSegmentCached_characterization (H : String → String) (segment : Segment)
    (config : Config) :
    isSegmentCached H none segment config = none ∧
    ∀ m : CacheManifest, (m.segments.map (fun s => s.segmentId)).Nodup →
      ∀ e : CachedSegment,
        (isSegmentCached H (some m) segment config = some e ↔
          e ∈ m.segments ∧ e.segmentId = segment.id ∧ e.success = true ∧
            e.hash.combinedHash = (generateSegmentHash H segment config).combinedHash) := by
  refine ⟨rfl, fun m hnd e => ?_⟩
  constructor
  · intro h
    rcases hf : m.segments.find? (fun s => s.segmentId == segment.id) with _ | cached
    · simp [isSegmentCached, hf] at h
    · have hmem := List.mem_of_find?_eq_some hf
      have hpred := List.find?_some hf
      rw [beq_iff_eq] at hpred
      by_cases hs : cached.success = true
      · by_cases hh :
            cached.hash.combinedHash = (generateSegmentHash H segment config).combinedHash
        · have he : isSegmentCached H (some m) segment config = some cached := by
            simp [isSegmentCached, hf, hs, hh]
          rw [he] at h
          cases h
          exact ⟨hmem, hpred, hs, hh⟩
        · have he : isSegmentCached H (some m) segment config = none := by
            simp [isSegmentCached, hf, hs, hh]
          rw [he] at h
          cases h
      · have he : isSegmentCached H (some m) segment config = none := by
          simp [isSegmentCached, hf, hs]
        rw [he] at h
        cases h
  · rintro ⟨hmem, hid, hs, hh⟩
    have hf : m.segments.find? (fun s => s.segmentId == segment.id) = some e :=
      (find?_segmentId_eq_some_iff _ hnd _ _).2 ⟨hmem, hid⟩
    simp [isSegmentCached, hf, hs, hh]

/-- Witness for C2 at a concrete manifest, segment and digest. -/
theorem isSegmentCached_characterization_witness :
    ((manifestA "aaaa" "cccc").segments.map (fun s => s.segmentId)).Nodup ∧
    (isSegmentCached identityDigest (some (manifestA "aaaa" "cccc")) segA cfg0 =
        some entryA ↔
      entryA ∈ (manifestA "aaaa" "cccc").segments ∧ entryA.segmentId = segA.id ∧
        entryA.success = true ∧
        entryA.hash.combinedHash =
          (generateSegmentHash identityDigest segA cfg0).combinedHash) :=
  ⟨by decide,
    (isSegmentCached_characterization identityDigest segA cfg0).2
      (manifestA "aaaa" "cccc") (by decide) entryA⟩

/-- C1: the cache-hit predicate itself ignores the manifest's `storyHash`
and `configHash` fields (first conjunct), but `generateAudiobook` replaces
the whole loaded manifest with an empty one as soon as a stored hash differs
from the fresh one, so an entry that is servable under the stored manifest
(second conjunct) is nevertheless scheduled for regeneration in the run
(remaining conjuncts) — the code defeats the decoupling the claim states. -/
theorem storyHash_decoupled_but_run_resets :
    (∀ (H : String → String) (m : CacheManifest) (segment : Segment) (config : Config)
        (sh ch : String),
        isSegmentCached H (some { m with storyHash := sh, configHash := ch }) segment
            config =
          isSegmentCached H (some m) segment config) ∧
    isSegmentCached identityDigest (some (manifestA "aaaa" "cccc")) segA cfg0 =
      some entryA ∧
    selectManifest false (some (manifestA "aaaa" "cccc")) "story.txt" "bbbb" "cccc" "t1" =
      createEmptyManifest "story.txt" "bbbb" "cccc" "t1" ∧
    (runGenerationPhase identityDigest (fun _ => true) (fun _ => { success := false })
        false (some (manifestA "aaaa" "cccc")) "out" "story.txt" "bbbb" "cccc" "t1"
        [segA] cfg0).toGenerate = [segA] ∧
    getCachedSegments identityDigest
        (some (selectManifest false (some (manifestA "aaaa" "cccc")) "story.txt" "bbbb"
          "cccc" "t1")) [segA] cfg0 = [] :=
  ⟨fun _ _ _ _ _ _ => rfl, rfl, rfl, rfl, rfl⟩

/-- C3: with a valid cache entry whose audio file is missing from disk, the
run neither schedules the segment for regeneration (`toGenerate` is empty
because the entry is a cache hit) nor serves it (the cached-results pass
drops it with only a warning), so the segment vanishes from the output —
the code does not move it back into the to-generate set as claimed. -/
theorem missing_file_segment_dropped :
    isSegmentCached identityDigest (some (manifestA "aaaa" "cccc")) segA cfg0 =
      some entryA ∧
    (runGenerationPhase identityDigest (fun _ => false) (fun _ => { success := false })
        false (some (manifestA "aaaa" "cccc")) "out" "story.txt" "aaaa" "cccc" "t1"
        [segA] cfg0).toGenerate = [] ∧
    (runGenerationPhase identityDigest (fun _ => false) (fun _ => { success := false })
        false (some (manifestA "aaaa" "cccc")) "out" "story.txt" "aaaa" "cccc" "t1"
        [segA] cfg0).results = [] :=
  ⟨rfl, rfl, rfl⟩

/-- C4: a transient failure (rate-limit error on the first call) is retried
by the inner `withRetry` with the SAME seed (seeds `[100, 100]`, not
`[100, 101]`) after an exponential-backoff delay of `1000·2^attempt` ms plus
jitter (here 1000 ms with zero jitter, not a fixed 2000 ms cooldown); the
retry then succeeds.  This contradicts the claimed seed increment and fixed
2-second cooldown for transient retries. -/
theorem transient_retry_keeps_seed :
    generateAudio stubTransientOnce cfgGem none noJitter (reqSeed 100 "Hello!") =
      { response :=
          { success := true, audioPath := some "/output/test.wav",
            durationMs := some 6000, fileSize := some 164 },
        calls := 2, seeds := [100, 100], delays := [1000] } ∧
    ([100, 100] : List Int) ≠ [100, 101] ∧ ((1000 : Rat) ≠ 2000) := by
  have hdur : estimateWavDuration wav6s = 6000 := by
    have hlen : wav6s.len = 164 := rfl
    have h22 : wav6s.readUInt16LE 22 = 1 := rfl
    have h24 : wav6s.readUInt32LE 24 = 10 := rfl
    have h34 : wav6s.readUInt16LE 34 = 16 := rfl
    have h40 : wav6s.readUInt32LE 40 = 120 := rfl
    simp only [estimateWavDuration, hlen, h22, h24, h34, h40]
    norm_num [round_eq]
  have hdel : min ((1000 : Rat) * 2 ^ 0 + noJitter 0) 30000 = 1000 := by
    norm_num [noJitter]
  refine ⟨?_, by decide, by norm_num⟩
  rw [← hdur, ← hdel]
  rfl

/-- C5: for the style-only text `"<gasps>"` a successful synthesis of
6000 ms (exceeding the claimed 5-second strict cap) is accepted as-is: one
API call, success, no duration check and no seed retry anywhere in
`generateAudio`. -/
theorem style_only_long_audio_accepted :
    generateAudio stubOk6s cfgGem none noJitter (reqSeed 100 "<gasps>") =
      { response :=
          { success := true, audioPath := some "/output/test.wav",
            durationMs := some 6000, fileSize := some 164 },
        calls := 1, seeds := [100], delays := [] } ∧
    (5000 : Int) < 6000 := by
  have hdur : estimateWavDuration wav6s = 6000 := by
    have hlen : wav6s.len = 164 := rfl
    have h22 : wav6s.readUInt16LE 22 = 1 := rfl
    have h24 : wav6s.readUInt32LE 24 = 10 := rfl
    have h34 : wav6s.readUInt16LE 34 = 16 := rfl
    have h40 : wav6s.readUInt32LE 40 = 120 := rfl
    simp only [estimateWavDuration, hlen, h22, h24, h34, h40]
    norm_num [round_eq]
  refine ⟨?_, by decide⟩
  rw [← hdur]
  rfl

/-- C6: when every call reports the generation-incomplete condition OTHER,
`generateAudio` makes exactly 4 API calls with seeds `N, N+1, N+2, N+3` in
order, sleeps no cooldown, and returns a recorded failure — no fifth call is
made. -/
theorem seed_retry_exhaustion (N : Int) :
    (generateAudio stubOther cfgGem none noJitter (reqSeed N "Hello!")).response =
      { success := false,
        error := some "Gemini TTS generation failed: Generation incomplete: OTHER" } ∧
    (generateAudio stubOther cfgGem none noJitter (reqSeed N "Hello!")).calls = 4 ∧
    (generateAudio stubOther cfgGem none noJitter (reqSeed N "Hello!")).seeds =
      [N, N + 1, N + 2, N + 3] ∧
    (generateAudio stubOther cfgGem none noJitter (reqSeed N "Hello!")).delays = [] := by
  refine ⟨rfl, rfl, ?_, rfl⟩
  have h : (generateAudio stubOther cfgGem none noJitter (reqSeed N "Hello!")).seeds =
      [N, N + (Int.ofNat 0) + 1, N + (Int.ofNat 1) + 1, N + (Int.ofNat 2) + 1] := rfl
  rw [h]
  norm_num
  omega

/-- Projecting the pairs produced by a `filterMap` that tags each kept
element leaves exactly the elements kept by the corresponding filter. -/
theorem filterMap_pair_map_fst (f : Segment → Option CachedSegment)
    (segs : List Segment) :
    (segs.filterMap (fun s => (f s).map (fun c => (s, c)))).map Prod.fst =
      segs.filter (fun s => (f s).isSome) := by
  induction segs with
  | nil => rfl
  | cons s rest ih =>
    cases h : f s with
    | none => simp [List.filterMap_cons, h, List.filter_cons, ih]
    | some e => simp [List.filterMap_cons, h, List.filter_cons, ih]

/-- Counting an element in the `p`-filtered and `!p`-filtered halves of a
list adds up to its count in the whole list. -/
theorem count_filter_split (p : Segment → Bool) (l : List Segment) (s : Segment) :
    (l.filter p).count s + (l.filter (fun x => !p x)).count s = l.count s := by
  induction l with
  | nil => rfl
  | cons a l ih =>
    by_cases hpa : p a = true
    · rw [List.filter_cons_of_pos hpa, List.filter_cons_of_neg (by simp [hpa]),
        List.count_cons, List.count_cons]
      omega
    · rw [List.filter_cons_of_neg hpa, List.filter_cons_of_pos (by simp [hpa]),
        List.count_cons, List.count_cons]
      omega

/-- C7: for every manifest (or absent manifest), segment list and config,
the planner's two queries partition the input: both preserve input order
(they are sublists of the input), each input segment lands in exactly one of
the two results (counts add up), and no segment is in both. -/
theorem planner_partition (H : String → String) (mopt : Option CacheManifest)
    (segs : List Segment) (c : Config) :
    (getSegmentsToGenerate H mopt segs c).Sublist segs ∧
    ((getCachedSegments H mopt segs c).map Prod.fst).Sublist segs ∧
    (∀ s : Segment,
      (getSegmentsToGenerate H mopt segs c).count s +
        ((getCachedSegments H mopt segs c).map Prod.fst).count s = segs.count s) ∧
    ∀ s : Segment,
      ¬(s ∈ getSegmentsToGenerate H mopt segs c ∧
        s ∈ (getCachedSegments H mopt segs c).map Prod.fst) := by
  have hmap : (getCachedSegments H mopt segs c).map Prod.fst =
      segs.filter (fun s => (isSegmentCached H mopt s c).isSome) :=
    filterMap_pair_map_fst (fun s => isSegmentCached H mopt s c) segs
  have hnot : segs.filter (fun s => !(isSegmentCached H mopt s c).isNone) =
      segs.filter (fun s => (isSegmentCached H mopt s c).isSome) := by
    apply List.filter_congr
    intro x _
    cases isSegmentCached H mopt x c <;> rfl
  refine ⟨List.filter_sublist segs, ?_, ?_, ?_⟩
  · rw [hmap]
    exact List.filter_sublist segs
  · intro s
    rw [hmap, ← hnot]
    exact count_filter_split (fun x => (isSegmentCached H mopt x c).isNone) segs s
  · intro s ⟨h1, h2⟩
    rw [hmap] at h2
    have hn := (List.mem_filter.1 h1).2
    have hs := (List.mem_filter.1 h2).2
    cases h : isSegmentCached H mopt s c <;> rw [h] at hn hs <;> simp_all

/-- The entry list produced by an upsert, before sorting. -/
theorem updateCachedSegment_segments (H : String → String) (m : CacheManifest)
    (segment : Segment) (config : Config) (result : UpsertResult) (now : String) :
    (updateCachedSegment H m segment config result now).segments =
      ((m.segments.filter fun s => s.segmentId != segment.id) ++
        [mkCachedSegment H segment config result now]).insertionSort
        (fun a b => a.index ≤ b.index) := rfl

/-- Distinctness of `segmentId`s is preserved by an upsert. -/
theorem updateCachedSegment_nodup (H : String → String) (m : CacheManifest)
    (segment : Segment) (config : Config) (result : UpsertResult) (now : String)
    (hm : m.segments.Pairwise (fun a b => a.segmentId ≠ b.segmentId)) :
    (updateCachedSegment H m segment config result now).segments.Pairwise
      (fun a b => a.segmentId ≠ b.segmentId) := by
  rw [updateCachedSegment_segments]
  have hperm := List.perm_insertionSort (fun a b : CachedSegment => a.index ≤ b.index)
    ((m.segments.filter fun s => s.segmentId != segment.id) ++
      [mkCachedSegment H segment config result now])
  refine (List.Perm.pairwise_iff (fun h => Ne.symm h) hperm).2 ?_
  refine List.pairwise_append.2 ⟨hm.filter _, List.pairwise_singleton _ _, ?_⟩
  intro a ha b hb
  have hane : (a.segmentId != segment.id) = true := (List.mem_filter.1 ha).2
  rcases List.mem_singleton.1 hb with rfl
  simpa using hane

/-- Sortedness by index always holds after an upsert. -/
theorem updateCachedSegment_sorted (H : String → String) (m : CacheManifest)
    (segment : Segment) (config : Config) (result : UpsertResult) (now : String) :
    (updateCachedSegment H m segment config result now).segments.Pairwise
      (fun a b => a.index ≤ b.index) := by
  rw [updateCachedSegment_segments]
  haveI : IsTotal CachedSegment (fun a b => a.index ≤ b.index) :=
    ⟨fun a b => Int.le_total a.index b.index⟩
  haveI : IsTrans CachedSegment (fun a b => a.index ≤ b.index) :=
    ⟨fun _ _ _ h1 h2 => le_trans h1 h2⟩
  exact List.sorted_insertionSort _ _

/-- Filtering an upserted manifest for the upserted id leaves exactly the
fresh entry. -/
theorem updateCachedSegment_filter_id (H : String → String) (m : CacheManifest)
    (segment : Segment) (config : Config) (result : UpsertResult) (now : String) :
    (updateCachedSegment H m segment config result now).segments.filter
        (fun e => e.segmentId == segment.id) =
      [mkCachedSegment H segment config result now] := by
  rw [updateCachedSegment_segments]
  have hperm := (List.perm_insertionSort (fun a b : CachedSegment => a.index ≤ b.index)
    ((m.segments.filter fun s => s.segmentId != segment.id) ++
      [mkCachedSegment H segment config result now])).filter
    (fun e => e.segmentId == segment.id)
  rw [List.filter_append, List.filter_filter] at hperm
  have h1 : (m.segments.filter fun a =>
      (a.segmentId == segment.id) && (a.segmentId != segment.id)) = [] := by
    apply List.filter_eq_nil_iff.2
    intro a _
    by_cases h : a.segmentId = segment.id <;> simp [h]
  have h2 : ([mkCachedSegment H segment config result now].filter
      (fun e => e.segmentId == segment.id)) =
      [mkCachedSegment H segment config result now] := by
    simp [mkCachedSegment]
  rw [h1, h2] at hperm
  exact List.perm_singleton.1 hperm

/-- C8: both manifest mutations preserve the invariant (at most one entry
per `segmentId`, entries sorted by `index`), and upserting the same segment
twice leaves exactly one entry for its id, carrying the second upsert's
data. -/
theorem cache_mutation_invariants (H : String → String) (m : CacheManifest)
    (segment : Segment) (config : Config) (r1 r2 : UpsertResult)
    (now1 now2 now3 : String) (sid : String) (hm : manifestInv m) :
    manifestInv (updateCachedSegment H m segment config r1 now1) ∧
    manifestInv (removeCachedSegment m sid now2) ∧
    (updateCachedSegment H (updateCachedSegment H m segment config r1 now1) segment
        config r2 now3).segments.filter (fun e => e.segmentId == segment.id) =
      [mkCachedSegment H segment config r2 now3] := by
  refine ⟨⟨updateCachedSegment_nodup H m segment config r1 now1 hm.1,
      updateCachedSegment_sorted H m segment config r1 now1⟩,
    ⟨hm.1.filter _, hm.2.filter _⟩,
    updateCachedSegment_filter_id H _ segment config r2 now3⟩

/-- Witness for C8 at a concrete manifest and upsert payloads. -/
theorem cache_mutation_invariants_witness :
    manifestInv (manifestA "aaaa" "cccc") ∧
    (manifestInv (updateCachedSegment identityDigest (manifestA "aaaa" "cccc") segB cfg0
        { audioPath := "seg_0002.wav", durationMs := 3, fileSize := 7, success := true }
        "t1") ∧
    manifestInv (removeCachedSegment (manifestA "aaaa" "cccc") "seg_0001" "t2") ∧
    (updateCachedSegment identityDigest
        (updateCachedSegment identityDigest (manifestA "aaaa" "cccc") segB cfg0
          { audioPath := "seg_0002.wav", durationMs := 3, fileSize := 7, success := true }
          "t1") segB cfg0
        { audioPath := "seg_0002.wav", durationMs := 4, fileSize := 9, success := false }
        "t3").segments.filter (fun e => e.segmentId == segB.id) =
      [mkCachedSegment identityDigest segB cfg0
        { audioPath := "seg_0002.wav", durationMs := 4, fileSize := 9, success := false }
        "t3"]) :=
  ⟨by decide,
    cache_mutation_invariants identityDigest (manifestA "aaaa" "cccc") segB cfg0
      { audioPath := "seg_0002.wav", durationMs := 3, fileSize := 7, success := true }
      { audioPath := "seg_0002.wav", durationMs := 4, fileSize := 9, success := false }
      "t1" "t2" "t3" "seg_0001" (by decide)⟩

/-- C9 counterexample: with the manifest absent and the speaker filter
`["ALICE"]`, `getSegmentsWithStyleChanges` returns BOTH segments — including
`segB`, whose speaker "BOB" is not in the filter — instead of only the
filtered segment `[segA]` the claim demands. -/
theorem style_filter_ignored_cex :
    getSegmentsWithStyleChanges identityDigest none [segA, segB] cfg0 (some ["ALICE"]) =
      [segA, segB] ∧
    segB.speaker = "BOB" ∧
    getSegmentsWithStyleChanges identityDigest none [segA, segB] cfg0 (some ["ALICE"]) ≠
      [segA] :=
  ⟨rfl, rfl, by decide⟩

/-- C9 (amended): when the manifest is absent, `getSegmentsWithStyleChanges`
returns ALL input segments, ignoring any speaker filter; only when a
manifest is present does the filter exclude segments of other speakers
(every returned segment's speaker is in the filter, case-insensitively). -/
theorem style_changes_when_manifest_absent (H : String → String) :
    (∀ (segs : List Segment) (c : Config) (sp : Option (List String)),
      getSegmentsWithStyleChanges H none segs c sp = segs) ∧
    ∀ (m : CacheManifest) (segs : List Segment) (c : Config) (sps : List String)
      (s : Segment),
      s ∈ getSegmentsWithStyleChanges H (some m) segs c (some sps) →
      ((sps.map strToUpper).contains (strToUpper s.speaker)) = true := by
  refine ⟨fun _ _ _ => rfl, ?_⟩
  intro m segs c sps s hs
  have hp := (List.mem_filter.1 hs).2
  simp at hp ⊢
  exact hp.1

/-- Witness for C9's amended claim at a concrete manifest and filter. -/
theorem style_changes_when_manifest_absent_witness :
    segA ∈ getSegmentsWithStyleChanges identityDigest
        (some (createEmptyManifest "story.txt" "aaaa" "cccc" "t0")) [segA] cfg0
        (some ["ALICE"]) ∧
    ((["ALICE"].map strToUpper).contains (strToUpper segA.speaker)) = true :=
  ⟨by decide,
    (style_changes_when_manifest_absent identityDigest).2
      (createEmptyManifest "story.txt" "aaaa" "cccc" "t0") [segA] cfg0 ["ALICE"] segA
      (by decide)⟩

/-- Per-file duration bookkeeping of the assembly loop: a successful
`stitchGo` records, for each input file in order, exactly the planned
duration (caller value if present and nonzero, else computed from the
file's payload and header). -/
theorem stitchGo_durations (fs : String → Option Buffer) (opts : StitchOptions)
    (sil : Buffer) :
    ∀ (files : List AudioFileInfo) (pos : Rat)
      (out : List ManifestSegment × List Buffer × Rat),
      stitchGo fs opts sil files pos = .ok out →
      out.1.map (fun sg => sg.durationMs) = files.map (plannedDuration fs) := by
  intro files
  induction files with
  | nil =>
    intro pos out h
    injection h with h
    rw [← h]
    rfl
  | cons f rest ih =>
    intro pos out h
    simp only [stitchGo] at h
    split at h
    next hf => simp at h
    next buf hf =>
      split at h
      next hph => simp at h
      next hdr hph =>
        split at h
        next e hrec => simp at h
        next segs chunks finalPos hrec =>
          injection h with h
          rw [← h]
          simp only [List.map_cons]
          rw [ih _ _ hrec]
          have hd : plannedDuration fs f =
              stitchFileDuration f hdr (extractWavData buf) := by
            simp [plannedDuration, hf, hph]
          rw [hd]

/-- C10 (amended): the timing manifest of a successful assembly records, per
input file in index order, the caller-supplied `durationMs` when it is
present and nonzero, and the duration computed from the extracted payload
and parsed header when `durationMs` is absent OR zero (JS `||` treats a
present 0 as absent). -/
theorem stitch_records_planned_durations (fs : String → Option Buffer)
    (files : List AudioFileInfo) (outputPath : String) (opts : StitchOptions)
    (now : String) :
    stitchDurations fs files outputPath opts now =
      (stitchAudioFiles fs files outputPath opts now).toOption.map
        (fun _ => (files.insertionSort (fun a b => a.index ≤ b.index)).map
          (plannedDuration fs)) := by
  unfold stitchDurations stitchAudioFiles
  rcases hgo : stitchGo fs opts
      (generateSilence opts.silencePaddingMs opts.sampleRate opts.numChannels
        opts.bitsPerSample)
      (files.insertionSort (fun a b => a.index ≤ b.index)) 0 with e | out
  · simp only [hgo]
    rfl
  · rcases out with ⟨segs, chunks, p⟩
    simp only [hgo, Except.toOption, Option.map_some']
    exact congrArg some (stitchGo_durations fs opts _ _ _ _ hgo)

/-- C10 counterexample: a file whose caller-supplied `durationMs` is 0 (the
placeholder recovered cache entries carry) gets the duration recomputed from
its payload — the manifest records 1 ms, not the supplied 0, so a present
`durationMs` is not always used. -/
theorem stitch_zero_duration_recomputed :
    stitchDurations fsOne [fileA (some 0)] "out.wav" {} "t0" = some [1] ∧
    (1 : Rat) ≠ 0 := by
  constructor
  · have h : stitchDurations fsOne [fileA (some 0)] "out.wav" {} "t0" =
        some [plannedDuration fsOne (fileA (some 0))] := rfl
    rw [h]
    have hp : plannedDuration fsOne (fileA (some 0)) = 1 := by
      have h1 : plannedDuration fsOne (fileA (some 0)) =
          stitchFileDuration (fileA (some 0)) ⟨1, 24000, 16, 48⟩
            (List.replicate 48 0) := rfl
      rw [h1]
      simp only [stitchFileDuration, fileA]
      norm_num [calculateDuration, Buffer.len]
    rw [hp]
  · norm_num

end Audiobook
